import Mathlib

/-!
Verification of the P4TV entrypoint (src/entrypoint.py), a wrapper that runs a
P4-to-Boogie translator and the Ultimate Automizer model checker, classifies
the verifier text into a verdict, and extracts a lasso-shaped counterexample.

The Python code is shallowly embedded: strings are Lean `String`s, regex
literal-alternation searches become case-insensitive substring searches,
subprocess results and the filesystem become an explicit `Env` record, and
`main` becomes a pure function from `Env` to an `Outcome`.
-/

namespace P4TV

/-- Case-sensitive substring occurrence, models Python `pat in hay` and
`re.search` for a literal pattern. -/
def occursIn (pat : List Char) : List Char → Bool
  | [] => pat.isEmpty
  | c :: rest => pat.isPrefixOf (c :: rest) || occursIn pat rest

/-- Lowercasing of a string as a character list (ASCII case folding, which is
what the markers searched for exercise under `re.IGNORECASE`). -/
def lowerData (s : String) : List Char :=
  s.data.map Char.toLower

/-- Case-insensitive substring search on strings: models
`re.search(pat, hay, re.IGNORECASE)` for a literal (regex-free) `pat`. -/
def containsCI (hay pat : String) : Bool :=
  occursIn (lowerData pat) (lowerData hay)

/-- Case-sensitive substring search on strings, models Python `pat in hay`. -/
def containsSub (hay pat : String) : Bool :=
  occursIn pat.data hay.data

/-- The error-marker alternatives of the first `re.search` in entrypoint.py
line 107: `TypeErrorResult|SyntaxErrorResult|could not prove|ExceptionOrErrorResult|UnsupportedSyntaxResult`. -/
def errorMarkers : List String :=
  ["TypeErrorResult", "SyntaxErrorResult", "could not prove",
   "ExceptionOrErrorResult", "UnsupportedSyntaxResult"]

/-- The success-marker alternatives of entrypoint.py line 109:
`AllSpecificationsHoldResult|LTLPropertyHoldsResult|Termination proven`. -/
def trueMarkers : List String :=
  ["AllSpecificationsHoldResult", "LTLPropertyHoldsResult", "Termination proven"]

/-- The failure-marker alternatives of entrypoint.py line 111:
`CounterExampleResult|LTLPropertyNotHoldResult`. -/
def falseMarkers : List String :=
  ["CounterExampleResult", "LTLPropertyNotHoldResult"]

/-- Models `re.search(p1|p2|...|pn, out, re.IGNORECASE)`: succeeds iff some
alternative occurs case-insensitively. -/
def matchesAny (out : String) (pats : List String) : Bool :=
  pats.any (containsCI out)

/-- The verdict classifier, entrypoint.py lines 107-116: error markers first,
then success markers, then failure markers, then the timeout flag, else
`unknown`. -/
def classify (out : String) (timed_out : Bool) : String :=
  if matchesAny out errorMarkers then "error"
  else if matchesAny out trueMarkers then "true"
  else if matchesAny out falseMarkers then "false"
  else if timed_out then "timeout"
  else "unknown"

/-! ## Counterexample extraction (entrypoint.py lines 119-154) -/

/-- Characters stripped by Python `str.strip()` (ASCII whitespace). -/
def isPySpace (c : Char) : Bool :=
  c = ' ' || c = '\t' || c = '\n' || c = '\r' || c = '\x0b' || c = '\x0c'

/-- Python `line.strip()`: drop ASCII whitespace from both ends. -/
def pyStrip (s : String) : String :=
  ⟨((s.data.dropWhile isPySpace).reverse.dropWhile isPySpace).reverse⟩

/-- Python `raw[:n]`: the first `n` characters. -/
def pySlice (s : String) (n : Nat) : String :=
  ⟨s.data.take n⟩

/-- Python `s.startswith(pre)`. -/
def pyStartsWith (s pre : String) : Bool :=
  pre.data.isPrefixOf s.data

/-- Models `line == "Stem:" or line.startswith("Stem: ")` (entrypoint.py line 136). -/
def isStemLine (line : String) : Bool :=
  line = "Stem:" || pyStartsWith line "Stem: "

/-- Models `line == "Loop:" or line.startswith("Loop: ")` (entrypoint.py line 140). -/
def isLoopLine (line : String) : Bool :=
  line = "Loop:" || pyStartsWith line "Loop: "

/-- Models `re.match(r"\[L\d+\]", line)` (entrypoint.py line 144): the line starts
with `[L`, one or more digits, `]`. -/
def isTaggedLine (line : String) : Bool :=
  match line.data with
  | '[' :: 'L' :: rest =>
    let ds := rest.takeWhile Char.isDigit
    !ds.isEmpty &&
      (match rest.drop ds.length with
       | ']' :: _ => true
       | _ => false)
  | _ => false

/-- Models the test `"End of lasso representation" in line` (entrypoint.py line 147). -/
def containsEndMarker (line : String) : Bool :=
  containsSub line "End of lasso representation"

/-- The header appended on entering the stem section (entrypoint.py line 139). -/
def stemHeader : String := "=== STEM (initial path) ==="

/-- The header appended on entering the loop section (entrypoint.py line 143). -/
def loopHeader : String := "=== LOOP (repeating path) ==="

/-- The `current_section` variable of entrypoint.py line 133: `None`,
`"Stem"`, or `"Loop"`. -/
inductive Sec where
  | start : Sec
  | stem : Sec
  | loopy : Sec
deriving DecidableEq

/-- The trace clean-up loop of entrypoint.py lines 134-148: walk the lines of
the matched region, emit a section header on entering a section, keep
bracket-tagged statement lines, break at the end-of-lasso marker, drop the
rest. -/
def cleanLines : List String → Sec → List String
  | [], _ => []
  | l :: rest, sec =>
    let line := pyStrip l
    if isStemLine line then
      if sec = Sec.stem then cleanLines rest Sec.stem
      else stemHeader :: cleanLines rest Sec.stem
    else if isLoopLine line then
      if sec = Sec.loopy then cleanLines rest Sec.loopy
      else loopHeader :: cleanLines rest Sec.loopy
    else if isTaggedLine line then line :: cleanLines rest sec
    else if containsEndMarker line then []
    else cleanLines rest sec

/-- Length of a start-marker match at the head of `cs`, if any: the
alternation `(Stem:|We found a lasso-shaped)` of entrypoint.py line 124. -/
def startMarkerLen (cs : List Char) : Option Nat :=
  if "Stem:".data.isPrefixOf cs then some 5
  else if "We found a lasso-shaped".data.isPrefixOf cs then some 23
  else none

/-- Length of an end-marker match at the head of `cs`, if any: the alternation
`(End of lasso representation\.?|RESULT:)` of entrypoint.py line 124, with the
optional trailing dot taken greedily. -/
def endMarkerLen (cs : List Char) : Option Nat :=
  if "End of lasso representation".data.isPrefixOf cs then
    some (27 + (match cs.drop 27 with | '.' :: _ => 1 | _ => 0))
  else if "RESULT:".data.isPrefixOf cs then some 7
  else none

/-- Offset and length of the first end-marker occurrence in `cs`: the lazy
`.*?` of the lasso regex stops at the earliest end marker. -/
def findEndFrom : List Char → Option (Nat × Nat)
  | [] => none
  | c :: rest =>
    match endMarkerLen (c :: rest) with
    | some k => some (0, k)
    | none => (findEndFrom rest).map (fun p => (p.1 + 1, p.2))

/-- Models `re.search(r"(Stem:|We found a lasso-shaped).*?(End of lasso representation\.?|RESULT:)", out, re.DOTALL)`:
the match starts at the leftmost start marker that is followed by an end
marker, and `group(0)` runs up to the end of the earliest such end marker. -/
def findLassoFrom : List Char → Option (List Char)
  | [] => none
  | c :: rest =>
    match startMarkerLen (c :: rest) with
    | some k =>
      match findEndFrom ((c :: rest).drop k) with
      | some p => some ((c :: rest).take (k + p.1 + p.2))
      | none => findLassoFrom rest
    | none => findLassoFrom rest

/-- Python `raw_trace.split("\n")` as character lists: split at every
newline, keeping empty pieces. -/
def splitNl : List Char → List (List Char)
  | [] => [[]]
  | '\n' :: rest => [] :: splitNl rest
  | c :: rest =>
    match splitNl rest with
    | [] => [[c]]
    | l :: ls => (c :: l) :: ls

/-- Python `raw_trace.split("\n")` on strings. -/
def pySplitLines (s : String) : List String :=
  (splitNl s.data).map String.mk

/-- Python `"\n".join(lines)`. -/
def joinNl : List String → String
  | [] => ""
  | [l] => l
  | l :: ls => l ++ "\n" ++ joinNl ls

/-- Entrypoint.py lines 129-154, given the matched region `raw_trace`: clean
the lines; if any survive, join them with newlines, else fall back to the
first 5000 characters of the raw region. -/
def extractFromRegion (raw_trace : String) : String :=
  let trace_lines := cleanLines (pySplitLines raw_trace) Sec.start
  if trace_lines.isEmpty then pySlice raw_trace 5000
  else joinNl trace_lines

/-- Entrypoint.py lines 123-154: search for the lasso region; when it is
found the counterexample is extracted from it, otherwise `None` remains. -/
def extractCex (verify_output : String) : Option String :=
  match findLassoFrom verify_output.data with
  | some region => some (extractFromRegion ⟨region⟩)
  | none => none

/-! ## The orchestrating `main` (entrypoint.py lines 12-165)

Subprocess results, the filesystem, argv parsing and the clock become the
explicit `Env` record; `main` becomes a pure function from `Env` to an
`Outcome` that records the printed JSON, the exit code, and which external
tools were invoked. -/

/-- Outcome of the translator subprocess call (entrypoint.py lines 57-72):
`subprocess.TimeoutExpired`, another exception, or completion with a return
code and captured stdout/stderr. -/
inductive TOutcome where
  | timeout : TOutcome
  | exc : String → TOutcome
  | done : Int → String → String → TOutcome

/-- Outcome of the verifier subprocess call (entrypoint.py lines 85-101):
`subprocess.TimeoutExpired`, or completion with captured stdout/stderr. -/
inductive VOutcome where
  | timeout : VOutcome
  | done : String → String → VOutcome

/-- The ambient world of one run: argv/JSON validity, the requested files and
timeout, which paths exist, what each subprocess does, whether the Boogie
artifact is created, and the measured elapsed milliseconds. -/
structure Env where
  argProvided : Bool
  jsonValid : Bool
  files : List String
  timeoutSecs : Nat
  fileExists : String → Bool
  translateOutcome : TOutcome
  boogieCreated : Bool
  verifyOutcome : VOutcome
  elapsedMs : Nat

/-- The full result record printed by entrypoint.py lines 157-165:
`{verdict, time_ms, details, counterexample?}`; a `none` counterexample means
the key is absent from the JSON object. -/
structure ResultRecord where
  verdict : String
  time_ms : Nat
  details : String
  counterexample : Option String
deriving DecidableEq

/-- What one run prints: a usage/JSON error on stderr, an input-validation
error object, or a full result record. -/
inductive Printed where
  | usageErr : String → Printed
  | inputErr : String → Printed
  | result : ResultRecord → Printed
deriving DecidableEq

/-- Observable outcome of one run: exit code, printed JSON, whether each
external tool was invoked, and whether counterexample extraction ran. -/
structure Outcome where
  exitCode : Nat
  printed : Printed
  translatorInvoked : Bool
  verifierInvoked : Bool
  cexAttempted : Bool
deriving DecidableEq

/-- Models `if counterexample:` (entrypoint.py line 162): Python truthiness keeps
the key only for a non-empty string. -/
def truthy : Option String → Option String
  | some s => if s = "" then none else some s
  | none => none

/-- Entrypoint.py lines 103-165 after the verifier returned: set
`timed_out = False`, classify, extract a counterexample when the verdict is
`false`, and build the result record.  Returns the record and whether
extraction was attempted. -/
def classifyAndBuild (verify_output : String) (elapsed_ms : Nat) :
    ResultRecord × Bool :=
  let timed_out := false
  let verdict := classify verify_output timed_out
  let counterexample : Option String :=
    if verdict = "false" then extractCex verify_output else none
  ({ verdict := verdict, time_ms := elapsed_ms, details := verify_output,
     counterexample := truthy counterexample },
   verdict = "false")

/-- The `main` function of entrypoint.py, lines 12-165. -/
def main (env : Env) : Outcome :=
  if !env.argProvided then
    { exitCode := 1, printed := .usageErr "Usage: entrypoint.py <json_payload>",
      translatorInvoked := false, verifierInvoked := false, cexAttempted := false }
  else if !env.jsonValid then
    { exitCode := 1, printed := .usageErr "Invalid JSON input",
      translatorInvoked := false, verifierInvoked := false, cexAttempted := false }
  else if env.files.length < 2 then
    { exitCode := 1,
      printed := .inputErr "P4 and P4LTL files must be provided in JSON payload",
      translatorInvoked := false, verifierInvoked := false, cexAttempted := false }
  else
    let p4_file := env.files.getD 0 ""
    let p4ltl_file := env.files.getD 1 ""
    if !env.fileExists p4_file then
      { exitCode := 1, printed := .inputErr ("P4 file not found: " ++ p4_file),
        translatorInvoked := false, verifierInvoked := false, cexAttempted := false }
    else if !env.fileExists p4ltl_file then
      { exitCode := 1, printed := .inputErr ("P4LTL file not found: " ++ p4ltl_file),
        translatorInvoked := false, verifierInvoked := false, cexAttempted := false }
    else
      match env.translateOutcome with
      | .timeout =>
        let r : ResultRecord :=
          { verdict := "timeout", time_ms := env.elapsedMs,
            details := "Translation P4 + P4LTL to Boogie timeout",
            counterexample := none }
        { exitCode := 0, printed := .result r,
          translatorInvoked := true, verifierInvoked := false, cexAttempted := false }
      | .exc msg =>
        let r : ResultRecord :=
          { verdict := "error", time_ms := env.elapsedMs,
            details := "Translation error: " ++ msg, counterexample := none }
        { exitCode := 1, printed := .result r,
          translatorInvoked := true, verifierInvoked := false, cexAttempted := false }
      | .done returncode t_stdout t_stderr =>
        let translate_output := t_stdout ++ t_stderr
        if returncode ≠ 0 || !env.boogieCreated then
          let r : ResultRecord :=
            { verdict := "error", time_ms := env.elapsedMs,
              details := "Translation failed: " ++ translate_output,
              counterexample := none }
          { exitCode := 1, printed := .result r,
            translatorInvoked := true, verifierInvoked := false, cexAttempted := false }
        else
          match env.verifyOutcome with
          | .timeout =>
            let r : ResultRecord :=
              { verdict := "timeout", time_ms := env.elapsedMs,
                details := "Verification timeout after " ++ toString env.timeoutSecs ++ "s",
                counterexample := none }
            { exitCode := 0, printed := .result r,
              translatorInvoked := true, verifierInvoked := true, cexAttempted := false }
          | .done v_stdout v_stderr =>
            let verify_output := v_stdout ++ v_stderr
            let rb := classifyAndBuild verify_output env.elapsedMs
            { exitCode := 0, printed := .result rb.1,
              translatorInvoked := true, verifierInvoked := true,
              cexAttempted := rb.2 }

/-- The stripped bracket-tagged statement lines of a line list, in order:
what the clean-up loop keeps from a run of non-header lines. -/
def tagsOf (ls : List String) : List String :=
  (ls.map pyStrip).filter isTaggedLine

/-- A concrete verifier output whose lasso region contains no section header
and no tagged line, so extraction falls back to raw-text truncation. -/
def lassoFallbackExample : String :=
  "We found a lasso-shaped here End of lasso representation."

/-- A concrete world where everything succeeds and the verifier reports that
all specifications hold; used to instantiate the orchestration theorems. -/
def envOK : Env :=
  { argProvided := true, jsonValid := true, files := ["a.p4", "b.p4ltl"],
    timeoutSecs := 300, fileExists := fun _ => true,
    translateOutcome := .done 0 "" "", boogieCreated := true,
    verifyOutcome := .done "RESULT: AllSpecificationsHoldResult" "",
    elapsedMs := 7 }

/-- A concrete world where no file exists on disk. -/
def envNoFiles : Env :=
  { envOK with fileExists := fun _ => false }

/-- A concrete world where the translator times out. -/
def envTransTimeout : Env :=
  { envOK with translateOutcome := .timeout }

/-! ## Classifier claims -/

/-- C1: a verifier output matching an error-marker pattern as well as a
success-marker or failure-marker pattern is classified `error`; the error
patterns are checked first and take precedence. -/
theorem classify_error_precedence (out : String) (timed_out : Bool)
    (herr : matchesAny out errorMarkers = true)
    (hsf : matchesAny out trueMarkers = true ∨ matchesAny out falseMarkers = true) :
    classify out timed_out = "error" := by
  unfold classify
  rw [herr]
  simp

/-- Witness for C1 at the concrete output
`"TypeErrorResult near AllSpecificationsHoldResult"`. -/
theorem classify_error_precedence_witness :
    matchesAny "TypeErrorResult near AllSpecificationsHoldResult" errorMarkers = true ∧
    matchesAny "TypeErrorResult near AllSpecificationsHoldResult" trueMarkers = true ∧
    classify "TypeErrorResult near AllSpecificationsHoldResult" false = "error" :=
  ⟨by decide, by decide,
    classify_error_precedence "TypeErrorResult near AllSpecificationsHoldResult" false
      (by decide) (Or.inl (by decide))⟩

/-- C2 counterexample: the generic substrings `violation` and
`counterexample`, and the spaced phrases `counterexample result` and
`LTL property not hold`, are not failure markers for the classifier (the code
only searches for `CounterExampleResult` and `LTLPropertyNotHoldResult`); and
an output holding both a success and a failure marker and no error marker is
classified `true`, not `false`. -/
theorem classify_generic_failure_counterexample :
    classify "violation" false = "unknown" ∧
    classify "counterexample" false = "unknown" ∧
    classify "counterexample result" false = "unknown" ∧
    classify "LTL property not hold" false = "unknown" ∧
    classify "AllSpecificationsHoldResult CounterExampleResult" false = "true" := by
  refine ⟨by decide, by decide, by decide, by decide, by decide⟩

/-- C2 amended: for every verifier output containing a failure marker — a
case-insensitive occurrence of the substring `CounterExampleResult` or
`LTLPropertyNotHoldResult` — and no error marker and no success marker, the
classifier returns `false`, and counterexample extraction is then
attempted. -/
theorem classify_false_marker (out : String) (elapsed_ms : Nat)
    (hf : matchesAny out falseMarkers = true)
    (he : matchesAny out errorMarkers = false)
    (ht : matchesAny out trueMarkers = false) :
    (classifyAndBuild out elapsed_ms).1.verdict = "false" ∧
    (classifyAndBuild out elapsed_ms).2 = true := by
  unfold classifyAndBuild classify
  rw [hf, he, ht]
  simp

/-- Witness for the amended C2 at the concrete output
`"RESULT: CounterExampleResult"`. -/
theorem classify_false_marker_witness :
    matchesAny "RESULT: CounterExampleResult" falseMarkers = true ∧
    matchesAny "RESULT: CounterExampleResult" errorMarkers = false ∧
    matchesAny "RESULT: CounterExampleResult" trueMarkers = false ∧
    (classifyAndBuild "RESULT: CounterExampleResult" 7).1.verdict = "false" ∧
    (classifyAndBuild "RESULT: CounterExampleResult" 7).2 = true := by
  refine ⟨by decide, by decide, by decide, ?_, ?_⟩
  · exact (classify_false_marker "RESULT: CounterExampleResult" 7
      (by decide) (by decide) (by decide)).1
  · exact (classify_false_marker "RESULT: CounterExampleResult" 7
      (by decide) (by decide) (by decide)).2

/-- C3: a verifier output containing a success marker and no error marker is
classified `true`; in particular `"RESULT: AllSpecificationsHoldResult"`
yields a record with verdict `true` and no counterexample field. -/
theorem classify_true_marker (out : String) (timed_out : Bool) (elapsed_ms : Nat)
    (ht : matchesAny out trueMarkers = true)
    (he : matchesAny out errorMarkers = false) :
    classify out timed_out = "true" ∧
    (classifyAndBuild "RESULT: AllSpecificationsHoldResult" elapsed_ms).1.verdict = "true" ∧
    (classifyAndBuild "RESULT: AllSpecificationsHoldResult" elapsed_ms).1.counterexample = none := by
  have hc : classify "RESULT: AllSpecificationsHoldResult" false = "true" := by decide
  refine ⟨?_, ?_, ?_⟩
  · unfold classify
    rw [ht, he]
    simp
  · simpa [classifyAndBuild] using hc
  · simp [classifyAndBuild, hc, truthy]

/-! ## Orchestration claims -/

/-- Helper: under the hypotheses that argv and JSON are valid, both input
files exist, translation completed with exit code 0 and the Boogie artifact
was created, and the verifier completed, `main` reduces to the classification
outcome. -/
theorem main_verified_eq (env : Env)
    (ha : env.argProvided = true) (hj : env.jsonValid = true)
    (hl : ¬ env.files.length < 2)
    (hp1 : env.fileExists (env.files.getD 0 "") = true)
    (hp2 : env.fileExists (env.files.getD 1 "") = true)
    (rc : Int) (t_so t_se : String)
    (htr : env.translateOutcome = .done rc t_so t_se)
    (hrc : rc = 0) (hb : env.boogieCreated = true)
    (v_so v_se : String) (hv : env.verifyOutcome = .done v_so v_se) :
    main env =
      { exitCode := 0,
        printed := .result (classifyAndBuild (v_so ++ v_se) env.elapsedMs).1,
        translatorInvoked := true, verifierInvoked := true,
        cexAttempted := (classifyAndBuild (v_so ++ v_se) env.elapsedMs).2 } := by
  subst hrc
  simp only [List.getD_eq_getElem?_getD] at hp1 hp2
  simp [main, ha, hj, hl, hp1, hp2, htr, hb, hv]

/-- C6: when the P4 file or the P4LTL file does not exist, the run prints an
input-error result, exits with code 1, and invokes neither the translator nor
the verifier. -/
theorem main_missing_input_file (env : Env)
    (ha : env.argProvided = true) (hj : env.jsonValid = true)
    (hl : ¬ env.files.length < 2)
    (hmiss : env.fileExists (env.files.getD 0 "") = false ∨
      env.fileExists (env.files.getD 1 "") = false) :
    (main env).exitCode = 1 ∧
    (main env).translatorInvoked = false ∧
    (main env).verifierInvoked = false ∧
    ∃ m, (main env).printed = .inputErr m := by
  by_cases h1 : env.fileExists (env.files.getD 0 "") = true
  · have h2 : env.fileExists (env.files.getD 1 "") = false := by
      rcases hmiss with h | h
      · rw [h1] at h; cases h
      · exact h
    simp only [List.getD_eq_getElem?_getD] at h1 h2
    refine ⟨?_, ?_, ?_, "P4LTL file not found: " ++ env.files.getD 1 "", ?_⟩ <;>
      simp [main, ha, hj, hl, h1, h2]
  · have h1f : env.fileExists (env.files.getD 0 "") = false :=
      Bool.eq_false_iff.mpr (fun hc => h1 hc)
    simp only [List.getD_eq_getElem?_getD] at h1f
    refine ⟨?_, ?_, ?_, "P4 file not found: " ++ env.files.getD 0 "", ?_⟩ <;>
      simp [main, ha, hj, hl, h1f]

/-- Witness for C6: a world where no file exists. -/
theorem main_missing_input_file_witness :
    (main envNoFiles).exitCode = 1 ∧
    (main envNoFiles).translatorInvoked = false ∧
    (main envNoFiles).verifierInvoked = false ∧
    ∃ m, (main envNoFiles).printed = .inputErr m :=
  main_missing_input_file envNoFiles rfl rfl (by decide) (Or.inl rfl)

/-- C7: any translator failure skips verification; a translator timeout ends
the run with verdict `timeout`, and a non-zero exit or a missing Boogie
artifact ends it with verdict `error` whose details carry the captured
translator output. -/
theorem main_translator_failure (env : Env)
    (ha : env.argProvided = true) (hj : env.jsonValid = true)
    (hl : ¬ env.files.length < 2)
    (hp1 : env.fileExists (env.files.getD 0 "") = true)
    (hp2 : env.fileExists (env.files.getD 1 "") = true) :
    (env.translateOutcome = .timeout →
      (main env).verifierInvoked = false ∧
      ∃ r, (main env).printed = .result r ∧ r.verdict = "timeout") ∧
    (∀ (rc : Int) (t_so t_se : String),
      env.translateOutcome = .done rc t_so t_se →
      (rc ≠ 0 ∨ env.boogieCreated = false) →
      (main env).verifierInvoked = false ∧
      ∃ r, (main env).printed = .result r ∧ r.verdict = "error" ∧
        r.details = "Translation failed: " ++ (t_so ++ t_se)) := by
  simp only [List.getD_eq_getElem?_getD] at hp1 hp2
  constructor
  · intro htr
    refine ⟨?_, ?_⟩ <;> simp [main, ha, hj, hl, hp1, hp2, htr]
  · intro rc t_so t_se htr hfail
    rcases hfail with h | h <;>
      refine ⟨?_, ?_⟩ <;> simp [main, ha, hj, hl, hp1, hp2, htr, h]

/-- Witness for C7: a world whose translator times out. -/
theorem main_translator_failure_witness :
    (main envTransTimeout).verifierInvoked = false ∧
    ∃ r, (main envTransTimeout).printed = .result r ∧ r.verdict = "timeout" :=
  (main_translator_failure envTransTimeout rfl rfl (by decide) rfl rfl).1 rfl

/-- C8: the exit code is 0 or 1; usage errors and input-validation errors
exit 1; a printed result record exits 1 exactly when it is a translation
error (verdict `error` with the verifier never invoked), so translation and
verification timeouts and all classified results exit 0. -/
theorem main_exit_codes (env : Env) :
    ((main env).exitCode = 0 ∨ (main env).exitCode = 1) ∧
    (∀ m, (main env).printed = .usageErr m → (main env).exitCode = 1) ∧
    (∀ m, (main env).printed = .inputErr m → (main env).exitCode = 1) ∧
    (∀ r, (main env).printed = .result r →
      ((main env).exitCode = 1 ↔
        (r.verdict = "error" ∧ (main env).verifierInvoked = false))) := by
  obtain ⟨ap, jv, fs, ts, fe, tr, bc, vo, em⟩ := env
  cases ap
  · simp [main]
  · cases jv
    · simp [main]
    · by_cases hl : fs.length < 2
      · simp [main, hl]
      · by_cases h1 : fe (fs[0]?.getD "") = true
        · by_cases h2 : fe (fs[1]?.getD "") = true
          · cases tr with
            | timeout => simp [main, hl, h1, h2]
            | exc msg => simp [main, hl, h1, h2]
            | done rc t_so t_se =>
              by_cases hrc : rc = 0
              · subst hrc
                cases bc
                · simp [main, hl, h1, h2]
                · cases vo with
                  | timeout => simp [main, hl, h1, h2]
                  | done v_so v_se => simp [main, hl, h1, h2]
              · simp [main, hl, h1, h2, hrc]
          · have h2f : fe (fs[1]?.getD "") = false := Bool.eq_false_iff.mpr (fun hc => h2 hc)
            simp [main, hl, h1, h2f]
        · have h1f : fe (fs[0]?.getD "") = false := Bool.eq_false_iff.mpr (fun hc => h1 hc)
          simp [main, hl, h1f]

/-- Witness for C8: the input-error conjunct applied in a world where the P4
file is missing. -/
theorem main_exit_codes_witness :
    (main envNoFiles).exitCode = 1 :=
  (main_exit_codes envNoFiles).2.2.1 "P4 file not found: a.p4" rfl

/-- C9: every classified result record carries the full concatenation of the
verifier's stdout and stderr as its details; the counterexample field, when
present, is a non-empty string that the extractor actually produced; and when
the extractor produced nothing or an empty string the field is omitted. -/
theorem main_details_untruncated (env : Env)
    (ha : env.argProvided = true) (hj : env.jsonValid = true)
    (hl : ¬ env.files.length < 2)
    (hp1 : env.fileExists (env.files.getD 0 "") = true)
    (hp2 : env.fileExists (env.files.getD 1 "") = true)
    (rc : Int) (t_so t_se : String)
    (htr : env.translateOutcome = .done rc t_so t_se)
    (hrc : rc = 0) (hb : env.boogieCreated = true)
    (v_so v_se : String) (hv : env.verifyOutcome = .done v_so v_se) :
    ∃ r, (main env).printed = .result r ∧
      r.details = v_so ++ v_se ∧
      (∀ s, r.counterexample = some s → s ≠ "" ∧ extractCex (v_so ++ v_se) = some s) ∧
      ((extractCex (v_so ++ v_se) = none ∨ extractCex (v_so ++ v_se) = some "") →
        r.counterexample = none) := by
  rw [main_verified_eq env ha hj hl hp1 hp2 rc t_so t_se htr hrc hb v_so v_se hv]
  refine ⟨_, rfl, rfl, ?_, ?_⟩
  · intro s hs
    by_cases hf : classify (v_so ++ v_se) false = "false"
    · simp only [classifyAndBuild, hf, if_pos] at hs
      cases hcex : extractCex (v_so ++ v_se) with
      | none => rw [hcex] at hs; simp [truthy] at hs
      | some t =>
        rw [hcex] at hs
        by_cases ht : t = ""
        · subst ht; simp [truthy] at hs
        · simp [truthy, ht] at hs
          subst hs; exact ⟨ht, rfl⟩
    · simp [classifyAndBuild, hf, truthy] at hs
  · intro hnone
    by_cases hf : classify (v_so ++ v_se) false = "false"
    · rcases hnone with h | h <;> simp [classifyAndBuild, hf, h, truthy]
    · simp [classifyAndBuild, hf, truthy]

/-- Witness for C9 in the all-success world. -/
theorem main_details_untruncated_witness :
    ∃ r, (main envOK).printed = .result r ∧
      r.details = "RESULT: AllSpecificationsHoldResult" ++ "" ∧
      (∀ s, r.counterexample = some s → s ≠ "" ∧
        extractCex ("RESULT: AllSpecificationsHoldResult" ++ "") = some s) ∧
      ((extractCex ("RESULT: AllSpecificationsHoldResult" ++ "") = none ∨
          extractCex ("RESULT: AllSpecificationsHoldResult" ++ "") = some "") →
        r.counterexample = none) :=
  main_details_untruncated envOK rfl rfl (by decide) rfl rfl 0 "" "" rfl rfl rfl
    "RESULT: AllSpecificationsHoldResult" "" rfl

/-- C10: with the timeout flag necessarily `False` at the classification
point, the classifier never yields `timeout` — its result is one of `error`,
`true`, `false`, `unknown` — and whenever `main` classifies, the printed
verdict is `classify output false`, hence never `timeout`. -/
theorem classification_timeout_branch_unreachable (out : String) (env : Env)
    (ha : env.argProvided = true) (hj : env.jsonValid = true)
    (hl : ¬ env.files.length < 2)
    (hp1 : env.fileExists (env.files.getD 0 "") = true)
    (hp2 : env.fileExists (env.files.getD 1 "") = true)
    (rc : Int) (t_so t_se : String)
    (htr : env.translateOutcome = .done rc t_so t_se)
    (hrc : rc = 0) (hb : env.boogieCreated = true)
    (v_so v_se : String) (hv : env.verifyOutcome = .done v_so v_se) :
    (classify out false ≠ "timeout" ∧
      (classify out false = "error" ∨ classify out false = "true" ∨
        classify out false = "false" ∨ classify out false = "unknown")) ∧
    ∃ r, (main env).printed = .result r ∧
      r.verdict = classify (v_so ++ v_se) false ∧ r.verdict ≠ "timeout" := by
  have hcl : ∀ o : String, classify o false ≠ "timeout" ∧
      (classify o false = "error" ∨ classify o false = "true" ∨
        classify o false = "false" ∨ classify o false = "unknown") := by
    intro o
    unfold classify
    split_ifs <;> simp_all
  refine ⟨hcl out, ?_⟩
  rw [main_verified_eq env ha hj hl hp1 hp2 rc t_so t_se htr hrc hb v_so v_se hv]
  exact ⟨_, rfl, rfl, (hcl (v_so ++ v_se)).1⟩

/-- Witness for C10 in the all-success world. -/
theorem classification_timeout_branch_unreachable_witness :
    (classify "RESULT: AllSpecificationsHoldResult" false ≠ "timeout" ∧
      (classify "RESULT: AllSpecificationsHoldResult" false = "error" ∨
        classify "RESULT: AllSpecificationsHoldResult" false = "true" ∨
        classify "RESULT: AllSpecificationsHoldResult" false = "false" ∨
        classify "RESULT: AllSpecificationsHoldResult" false = "unknown")) ∧
    ∃ r, (main envOK).printed = .result r ∧
      r.verdict = classify ("RESULT: AllSpecificationsHoldResult" ++ "") false ∧
      r.verdict ≠ "timeout" :=
  classification_timeout_branch_unreachable "RESULT: AllSpecificationsHoldResult" envOK
    rfl rfl (by decide) rfl rfl 0 "" "" rfl rfl rfl
    "RESULT: AllSpecificationsHoldResult" "" rfl

/-- Witness for C3 at the concrete output
`"RESULT: AllSpecificationsHoldResult"`. -/
theorem classify_true_marker_witness :
    matchesAny "RESULT: AllSpecificationsHoldResult" trueMarkers = true ∧
    matchesAny "RESULT: AllSpecificationsHoldResult" errorMarkers = false ∧
    classify "RESULT: AllSpecificationsHoldResult" false = "true" ∧
    (classifyAndBuild "RESULT: AllSpecificationsHoldResult" 7).1.verdict = "true" ∧
    (classifyAndBuild "RESULT: AllSpecificationsHoldResult" 7).1.counterexample = none := by
  have h := classify_true_marker "RESULT: AllSpecificationsHoldResult" false 7
    (by decide) (by decide)
  exact ⟨by decide, by decide, h.1, h.2.1, h.2.2⟩

/-! ## Extraction claims -/

/-- A line cannot be both a `Stem:` line and a `Loop:` line. -/
theorem isStemLine_eq_false_of_isLoopLine (t : String) (h : isLoopLine t = true) :
    isStemLine t = false := by
  by_contra hs
  rw [Bool.not_eq_false] at hs
  unfold isStemLine at hs
  unfold isLoopLine at h
  rcases Bool.or_eq_true_iff.mp hs with hs1 | hs2 <;>
    rcases Bool.or_eq_true_iff.mp h with hl1 | hl2
  · exact absurd (of_decide_eq_true hl1 ▸ of_decide_eq_true hs1) (by decide)
  · rw [of_decide_eq_true hs1] at hl2
    exact absurd hl2 (by decide)
  · rw [of_decide_eq_true hl1] at hs2
    exact absurd hs2 (by decide)
  · unfold pyStartsWith at hs2 hl2
    cases htd : t.data with
    | nil => rw [htd] at hs2; simp [List.isPrefixOf] at hs2
    | cons c cs =>
      rw [htd] at hs2 hl2
      have hS : "Stem: ".data = 'S' :: "tem: ".data := rfl
      have hL : "Loop: ".data = 'L' :: "oop: ".data := rfl
      rw [hS] at hs2
      rw [hL] at hl2
      simp [List.isPrefixOf] at hs2 hl2
      exact absurd (hl2.1.trans hs2.1.symm) (by decide)

/-- Non-header non-end statement lines pass through the clean-up loop: the
tagged ones are kept (stripped) in order, the rest are dropped, and the
section state is unchanged. -/
theorem cleanLines_mid (xs rest : List String) (sec : Sec)
    (hxs : ∀ l ∈ xs, isStemLine (pyStrip l) = false ∧ isLoopLine (pyStrip l) = false ∧
      (isTaggedLine (pyStrip l) = true ∨ containsEndMarker (pyStrip l) = false)) :
    cleanLines (xs ++ rest) sec = tagsOf xs ++ cleanLines rest sec := by
  induction xs with
  | nil => simp [tagsOf]
  | cons l xs ih =>
    obtain ⟨h1, h2, h3⟩ := hxs l (List.mem_cons_self l xs)
    have hrest := fun l' hl' => hxs l' (List.mem_cons_of_mem l hl')
    by_cases ht : isTaggedLine (pyStrip l) = true
    · simp [cleanLines, h1, h2, ht, tagsOf, List.filter_cons, ih hrest]
    · have h4 : containsEndMarker (pyStrip l) = false := h3.resolve_left ht
      rw [Bool.not_eq_true] at ht
      simp [cleanLines, h1, h2, ht, h4, tagsOf, List.filter_cons, ih hrest]

/-- Extra `Stem:` lines while already in the stem section emit nothing. -/
theorem cleanLines_stem_run (xs rest : List String)
    (h : ∀ l ∈ xs, isStemLine (pyStrip l) = true) :
    cleanLines (xs ++ rest) Sec.stem = cleanLines rest Sec.stem := by
  induction xs with
  | nil => simp
  | cons l xs ih =>
    have h1 := h l (List.mem_cons_self l xs)
    have hrest := fun l' hl' => h l' (List.mem_cons_of_mem l hl')
    simp [cleanLines, h1, ih hrest]

/-- Extra `Loop:` lines while already in the loop section emit nothing. -/
theorem cleanLines_loop_run (xs rest : List String)
    (h : ∀ l ∈ xs, isLoopLine (pyStrip l) = true) :
    cleanLines (xs ++ rest) Sec.loopy = cleanLines rest Sec.loopy := by
  induction xs with
  | nil => simp
  | cons l xs ih =>
    have h1 := h l (List.mem_cons_self l xs)
    have h0 := isStemLine_eq_false_of_isLoopLine _ h1
    have hrest := fun l' hl' => h l' (List.mem_cons_of_mem l hl')
    simp [cleanLines, h0, h1, ih hrest]

/-- A line that is not a tagged line is never an element of `tagsOf`. -/
theorem not_mem_tagsOf (h : String) (hh : isTaggedLine h = false) (zs : List String) :
    h ∉ tagsOf zs := by
  intro hm
  have := (List.mem_filter.mp hm).2
  rw [hh] at this
  cases this

/-- C4: on a lasso region made of a (possibly repeated) `Stem:` line, a run
of statement lines, a `Loop:` line, another run of statement lines, and an
end-of-lasso line, the clean-up produces exactly one stem header, the tagged
stem lines in order, exactly one loop header, and the tagged loop lines in
order; untagged statement lines are dropped. -/
theorem lasso_trace_sections (s0 : String) (stems xs : List String)
    (l0 : String) (loops ys : List String) (endL : String) (rest : List String)
    (hs0 : isStemLine (pyStrip s0) = true)
    (hstems : ∀ l ∈ stems, isStemLine (pyStrip l) = true)
    (hxs : ∀ l ∈ xs, isStemLine (pyStrip l) = false ∧ isLoopLine (pyStrip l) = false ∧
      (isTaggedLine (pyStrip l) = true ∨ containsEndMarker (pyStrip l) = false))
    (hl0 : isLoopLine (pyStrip l0) = true)
    (hloops : ∀ l ∈ loops, isLoopLine (pyStrip l) = true)
    (hys : ∀ l ∈ ys, isStemLine (pyStrip l) = false ∧ isLoopLine (pyStrip l) = false ∧
      (isTaggedLine (pyStrip l) = true ∨ containsEndMarker (pyStrip l) = false))
    (hendL : isStemLine (pyStrip endL) = false ∧ isLoopLine (pyStrip endL) = false ∧
      isTaggedLine (pyStrip endL) = false ∧ containsEndMarker (pyStrip endL) = true) :
    cleanLines (s0 :: stems ++ xs ++ l0 :: loops ++ ys ++ endL :: rest) Sec.start =
      stemHeader :: (tagsOf xs ++ loopHeader :: tagsOf ys) ∧
    (stemHeader :: (tagsOf xs ++ loopHeader :: tagsOf ys)).count stemHeader = 1 ∧
    (stemHeader :: (tagsOf xs ++ loopHeader :: tagsOf ys)).count loopHeader = 1 := by
  obtain ⟨he1, he2, he3, he4⟩ := hendL
  have hl0s := isStemLine_eq_false_of_isLoopLine _ hl0
  have hmain :
      cleanLines (s0 :: stems ++ xs ++ l0 :: loops ++ ys ++ endL :: rest) Sec.start =
        stemHeader :: (tagsOf xs ++ loopHeader :: tagsOf ys) := by
    have hassoc :
        s0 :: stems ++ xs ++ l0 :: loops ++ ys ++ endL :: rest =
          s0 :: (stems ++ (xs ++ (l0 :: (loops ++ (ys ++ endL :: rest))))) := by
      simp
    rw [hassoc]
    have step0 :
        cleanLines (s0 :: (stems ++ (xs ++ (l0 :: (loops ++ (ys ++ endL :: rest)))))) Sec.start =
          stemHeader ::
            cleanLines (stems ++ (xs ++ (l0 :: (loops ++ (ys ++ endL :: rest))))) Sec.stem := by
      simp [cleanLines, hs0]
    rw [step0, cleanLines_stem_run _ _ hstems, cleanLines_mid _ _ _ hxs]
    have step1 :
        cleanLines (l0 :: (loops ++ (ys ++ endL :: rest))) Sec.stem =
          loopHeader :: cleanLines (loops ++ (ys ++ endL :: rest)) Sec.loopy := by
      simp [cleanLines, hl0s, hl0]
    rw [step1, cleanLines_loop_run _ _ hloops, cleanLines_mid _ _ _ hys]
    have step2 : cleanLines (endL :: rest) Sec.loopy = [] := by
      rw [Bool.eq_false_iff] at he3
      simp [cleanLines, he1, he2, he3, he4]
    rw [step2]
    simp
  refine ⟨hmain, ?_, ?_⟩
  · have e1 : (tagsOf xs).count stemHeader = 0 :=
      List.count_eq_zero.mpr (not_mem_tagsOf stemHeader (by decide) xs)
    have e2 : (tagsOf ys).count stemHeader = 0 :=
      List.count_eq_zero.mpr (not_mem_tagsOf stemHeader (by decide) ys)
    simp [List.count_cons, List.count_append, e1, e2]
    decide
  · have e1 : (tagsOf xs).count loopHeader = 0 :=
      List.count_eq_zero.mpr (not_mem_tagsOf loopHeader (by decide) xs)
    have e2 : (tagsOf ys).count loopHeader = 0 :=
      List.count_eq_zero.mpr (not_mem_tagsOf loopHeader (by decide) ys)
    simp [List.count_cons, List.count_append, e1, e2]
    decide

/-- Witness for C4 on the spec's example region: a duplicated `Stem:` line,
three tagged stem lines and one untagged line, a `Loop:` line, two tagged
loop lines, and the end-of-lasso line followed by trailing text. -/
theorem lasso_trace_sections_witness :
    cleanLines ("Stem:" :: ["Stem:"] ++
        ["[L12] x := 0", "[L13] y := 1", "[L14] z := 2", "noise"] ++
        "Loop:" :: [] ++ ["[L20] x := x", "[L21] y := y"] ++
        "End of lasso representation" :: ["RESULT: CounterExampleResult"]) Sec.start =
      stemHeader ::
        (tagsOf ["[L12] x := 0", "[L13] y := 1", "[L14] z := 2", "noise"] ++
          loopHeader :: tagsOf ["[L20] x := x", "[L21] y := y"]) ∧
    (stemHeader ::
        (tagsOf ["[L12] x := 0", "[L13] y := 1", "[L14] z := 2", "noise"] ++
          loopHeader :: tagsOf ["[L20] x := x", "[L21] y := y"])).count stemHeader = 1 ∧
    (stemHeader ::
        (tagsOf ["[L12] x := 0", "[L13] y := 1", "[L14] z := 2", "noise"] ++
          loopHeader :: tagsOf ["[L20] x := x", "[L21] y := y"])).count loopHeader = 1 :=
  lasso_trace_sections "Stem:" ["Stem:"]
    ["[L12] x := 0", "[L13] y := 1", "[L14] z := 2", "noise"]
    "Loop:" [] ["[L20] x := x", "[L21] y := y"]
    "End of lasso representation" ["RESULT: CounterExampleResult"]
    (by decide) (by decide) (by decide) (by decide) (by decide) (by decide)
    (by decide)

/-- Every region the lasso search returns is non-empty: it starts with a
start marker. -/
theorem findLassoFrom_ne_nil (cs : List Char) (r : List Char)
    (h : findLassoFrom cs = some r) : r ≠ [] := by
  induction cs with
  | nil => simp [findLassoFrom] at h
  | cons c rest ih =>
    unfold findLassoFrom at h
    split at h
    · rename_i k hs
      split at h
      · rename_i p he
        have hk : 0 < k := by
          unfold startMarkerLen at hs
          split_ifs at hs <;> injection hs with h5 <;> omega
        injection h with h5
        subst h5
        intro hnil
        rcases List.take_eq_nil_iff.mp hnil with h6 | h6
        · omega
        · cases h6
      · exact ih h
    · exact ih h

/-- C5: when the lasso region is matched but the clean-up keeps no line at
all, the extracted counterexample is the first 5000 characters of the raw
matched region — a non-empty string of length at most 5000. -/
theorem lasso_fallback_truncation (out : String) (r : List Char)
    (hfind : findLassoFrom out.data = some r)
    (hempty : cleanLines (pySplitLines ⟨r⟩) Sec.start = []) :
    extractCex out = some (pySlice ⟨r⟩ 5000) ∧
    pySlice ⟨r⟩ 5000 ≠ "" ∧ (pySlice ⟨r⟩ 5000).length ≤ 5000 := by
  have hne : r ≠ [] := findLassoFrom_ne_nil out.data r hfind
  have hreg : extractFromRegion ⟨r⟩ = pySlice ⟨r⟩ 5000 := by
    simp [extractFromRegion, hempty]
  refine ⟨?_, ?_, ?_⟩
  · unfold extractCex
    rw [hfind]
    exact congrArg some hreg
  · intro hcon
    have htake : r.take 5000 = [] := congrArg String.data hcon
    rcases List.take_eq_nil_iff.mp htake with h | h
    · omega
    · exact hne h
  · have hlen : (pySlice ⟨r⟩ 5000).length = (r.take 5000).length := rfl
    rw [hlen, List.length_take]
    omega

/-- Witness for C5 on a lasso region with no headers and no tagged lines. -/
theorem lasso_fallback_truncation_witness :
    extractCex lassoFallbackExample =
      some (pySlice ⟨lassoFallbackExample.data⟩ 5000) ∧
    pySlice ⟨lassoFallbackExample.data⟩ 5000 ≠ "" ∧
    (pySlice ⟨lassoFallbackExample.data⟩ 5000).length ≤ 5000 :=
  lasso_fallback_truncation lassoFallbackExample lassoFallbackExample.data
    (by decide) (by decide)

end P4TV
